import Mathlib

set_option maxRecDepth 4096

/-!
Verification of the `parallel_search` tool of the parallel-ai-mcp service.

The development is a shallow embedding of the source function
`parallelSearch`.  JavaScript optional values become `Option`, JavaScript
truthiness tests become explicit boolean functions, the JSON request body
becomes an ordered association list (a key absent from the list is an
omitted field), and the single outbound `fetch` call becomes an explicit
`FetchOutcome` parameter describing how the upstream behaves on this call.
The function returns the text result together with the outbound request it
issued (`none` when no network call is attempted).
-/

namespace ParallelMCP

/-- A JSON-like value as stored in the outbound request body
(`Record<string, unknown>` in the source).  The opaque `source_policy`
object is modelled as an association list of string fields. -/
inductive JsonVal where
  | str (s : String)
  | num (n : Int)
  | strList (xs : List String)
  | policyObj (fields : List (String × String))
deriving DecidableEq

/-- The argument set of the `parallel_search` tool, with every field
optional exactly as in the source signature. -/
structure SearchArgs where
  objective : Option String := none
  search_queries : Option (List String) := none
  processor : Option String := none
  max_results : Option Int := none
  max_chars_per_result : Option Int := none
  source_policy : Option (List (String × String)) := none
  api_key : Option String := none
deriving DecidableEq

/-- JavaScript truthiness of an optional string: `undefined` and the empty
string are falsy, every other string is truthy. -/
def strTruthy : Option String → Bool
  | none => false
  | some s => !s.isEmpty

/-- JavaScript truthiness of an optional array: an array value (even empty)
is always truthy, only `undefined` is falsy. -/
def arrTruthy (o : Option (List String)) : Bool :=
  o.isSome

/-- The apostrophe character, used in the source error texts. -/
def apos : String :=
  String.singleton (Char.ofNat 39)

/-- The validation error text returned when neither search input is given. -/
def missingInputMsg : String :=
  "Error: At least one of " ++ apos ++ "objective" ++ apos ++ " or " ++
    apos ++ "search_queries" ++ apos ++ " is required."

/-- The error text returned when no API key resolves. -/
def missingKeyMsg : String :=
  "Error: Parallel API key is required. Either pass it as " ++ apos ++
    "api_key" ++ apos ++ " parameter, set PARALLEL_API_KEY environment " ++
    "variable, or configure it in your MCP client headers as " ++ apos ++
    "x-api-key" ++ apos ++ ". Get your API key from https://parallel.ai"

/-- The fixed timeout error text. -/
def timeoutMsg : String :=
  "Error: Request to Parallel Search API timed out"

/-- The fixed upstream endpoint. -/
def PARALLEL_API_URL : String :=
  "https://api.parallel.ai/v1beta/search"

/-- The validation test `!objective && !search_queries` from the source. -/
def inputsMissing (args : SearchArgs) : Bool :=
  !strTruthy args.objective && !arrTruthy args.search_queries

/-- Credential resolution `api_key || process.env.PARALLEL_API_KEY`:
a truthy explicit key wins, otherwise the environment value (possibly
absent) is used. -/
def resolveApiKey (api_key envApiKey : Option String) : Option String :=
  if strTruthy api_key then api_key else envApiKey

/-- The optional fields of the outbound payload, each included exactly under
the condition of the source: truthiness for `objective`, definedness for
`search_queries` (arrays are always truthy), a strict `undefined` test for
the two numeric fields, truthiness (definedness) for `source_policy`. -/
def optFields (args : SearchArgs) : List (String × JsonVal) :=
  (if strTruthy args.objective then
    [("objective", JsonVal.str (args.objective.getD ""))] else []) ++
  (if arrTruthy args.search_queries then
    [("search_queries", JsonVal.strList (args.search_queries.getD []))] else []) ++
  (match args.max_results with
    | some n => [("max_results", JsonVal.num n)]
    | none => []) ++
  (match args.max_chars_per_result with
    | some n => [("max_chars_per_result", JsonVal.num n)]
    | none => []) ++
  (match args.source_policy with
    | some p => [("source_policy", JsonVal.policyObj p)]
    | none => [])

/-- The outbound JSON payload `requestBody`: the `processor` key (defaulted
to `base` when unset) followed by the conditionally included fields, in the
insertion order of the source. -/
def buildRequestBody (args : SearchArgs) : List (String × JsonVal) :=
  ("processor", JsonVal.str (args.processor.getD "base")) :: optFields args

/-- Whether the payload object has the given key. -/
def hasKey (body : List (String × JsonVal)) (k : String) : Bool :=
  body.any (fun kv => kv.1 == k)

/-- The value stored in the payload object under the given key. -/
def lookupKey (body : List (String × JsonVal)) (k : String) : Option JsonVal :=
  (body.find? (fun kv => kv.1 == k)).map (fun kv => kv.2)

/-- One entry of the upstream `results` array. -/
structure ResultEntry where
  title : Option String := none
  url : Option String := none
  excerpts : Option (List String) := none
deriving DecidableEq

/-- The parsed upstream response body. -/
structure SearchData where
  search_id : Option String := none
  results : Option (List ResultEntry) := none
deriving DecidableEq

/-- Decidable equality for `Except`, used by the derived instances below. -/
instance exceptDecEq {ε α : Type} [DecidableEq ε] [DecidableEq α] :
    DecidableEq (Except ε α) := fun x y =>
  match x, y with
  | .error a, .error b =>
    if h : a = b then .isTrue (by rw [h])
    else .isFalse (by intro hc; cases hc; exact h rfl)
  | .error _, .ok _ => .isFalse (by intro hc; cases hc)
  | .ok _, .error _ => .isFalse (by intro hc; cases hc)
  | .ok a, .ok b =>
    if h : a = b then .isTrue (by rw [h])
    else .isFalse (by intro hc; cases hc; exact h rfl)

/-- One possible behaviour of the single outbound `fetch` call: either the
call (or body parsing) throws an error carrying a name and a message, or an
HTTP response arrives with a status, a body text, and the result of parsing
that body as JSON (`Except.error` when `response.json()` would throw). -/
inductive FetchOutcome where
  | fault (name message : String)
  | httpResponse (status : Nat) (bodyText : String) (parsed : Except String SearchData)
deriving DecidableEq

/-- JavaScript `x || d` for an optional string: the fallback is used when
the string is absent or empty. -/
def strOrElse (o : Option String) (d : String) : String :=
  match o with
  | some s => if s.isEmpty then d else s
  | none => d

/-- Rendering of one result entry: bolded title (or `No title`), a URL line
(or `No URL`), then the excerpts joined with single spaces. -/
def formatResultEntry (r : ResultEntry) : String :=
  "**" ++ strOrElse r.title "No title" ++ "**\nURL: " ++
    strOrElse r.url "No URL" ++ "\n" ++
    String.intercalate " " (r.excerpts.getD [])

/-- The message produced when the parsed response has no results. -/
def noResultsMsg (sid : Option String) : String :=
  "Search completed (ID: " ++ strOrElse sid "unknown" ++ ") but no results found."

/-- Formatting of a successfully parsed upstream response: the no-results
message when the results list is absent or empty, otherwise the header line
with the search id followed by the entry blocks joined with the
horizontal-rule separator. -/
def formatSearchData (d : SearchData) : String :=
  match d.results with
  | none => noResultsMsg d.search_id
  | some rs =>
    if rs.length = 0 then noResultsMsg d.search_id
    else
      "Search ID: " ++ strOrElse d.search_id "unknown" ++ "\n\n" ++
        String.intercalate "\n\n---\n\n" (rs.map formatResultEntry)

/-- The `try` block body and `catch` handler of `parallelSearch` applied to
one outcome of the outbound call: a thrown `TimeoutError` gives the fixed
timeout text, any other thrown error gives the generic transport text with
the message of the error, a non-2xx status gives the upstream-error text with
status and raw body, a body that fails to parse gives the generic transport
text, and a parsed body is formatted. -/
def handleUpstream : FetchOutcome → String
  | .fault name message =>
    if name = "TimeoutError" then timeoutMsg
    else "Error calling Parallel Search API: " ++ message
  | .httpResponse status bodyText parsed =>
    if status < 200 ∨ 299 < status then
      "Error: Parallel Search API returned " ++ toString status ++ ": " ++ bodyText
    else
      match parsed with
      | .error e => "Error calling Parallel Search API: " ++ e
      | .ok d => formatSearchData d

/-- The outbound HTTP request as issued by the `fetch` call of the source. -/
structure OutboundRequest where
  url : String
  method : String
  contentType : String
  xApiKey : String
  body : List (String × JsonVal)
deriving DecidableEq

/-- Shallow embedding of the source function `parallelSearch`: validate the
search inputs, resolve the credential, build the payload, and run the
outbound call.  The second component is the request actually issued
(`none` when no network call is attempted). -/
def parallelSearch (args : SearchArgs) (envApiKey : Option String)
    (upstream : FetchOutcome) : String × Option OutboundRequest :=
  if inputsMissing args then
    (missingInputMsg, none)
  else
    match resolveApiKey args.api_key envApiKey with
    | none => (missingKeyMsg, none)
    | some k =>
      if k.isEmpty then (missingKeyMsg, none)
      else
        (handleUpstream upstream,
          some { url := PARALLEL_API_URL, method := "POST",
                 contentType := "application/json", xApiKey := k,
                 body := buildRequestBody args })

/-- Substring containment: `sub` occurs contiguously inside `s`. -/
def containsStr (s sub : String) : Prop :=
  ∃ a b, s = a ++ sub ++ b

/-- Rendering of one result entry as claim C4 literally words it: the bolded
title (or the literal placeholder only when the title is absent), a URL line
(or the placeholder only when the url is absent), then the excerpts joined
with single spaces. -/
def claimedEntryBlock (r : ResultEntry) : String :=
  "**" ++ (match r.title with | some t => t | none => "No title") ++
    "**\nURL: " ++ (match r.url with | some u => u | none => "No URL") ++
    "\n" ++ String.intercalate " " (r.excerpts.getD [])

/-- The whole success text as claim C4 literally words it: a header line with
the search identifier (or `unknown` only when it is absent), then the entry
blocks joined with the horizontal-rule separator. -/
def claimedResponseText (sid : Option String) (rs : List ResultEntry) : String :=
  "Search ID: " ++ (match sid with | some s => s | none => "unknown") ++
    "\n\n" ++ String.intercalate "\n\n---\n\n" (rs.map claimedEntryBlock)

/-- Rendering of one result entry as the amended claim C4 words it: the
bolded title (or the placeholder when the title is absent or empty), a URL
line (or the placeholder when the url is absent or empty), then the excerpts
joined with single spaces. -/
def amendedEntryBlock (r : ResultEntry) : String :=
  "**" ++ (match r.title with
    | some t => if t.isEmpty then "No title" else t
    | none => "No title") ++
  "**\nURL: " ++ (match r.url with
    | some u => if u.isEmpty then "No URL" else u
    | none => "No URL") ++
  "\n" ++ String.intercalate " " (r.excerpts.getD [])

/-- The whole success text as the amended claim C4 words it: a header line
with the search identifier (or `unknown` when it is absent or empty), then
the entry blocks joined with the horizontal-rule separator. -/
def amendedResponseText (sid : Option String) (rs : List ResultEntry) : String :=
  "Search ID: " ++ (match sid with
    | some s => if s.isEmpty then "unknown" else s
    | none => "unknown") ++
  "\n\n" ++ String.intercalate "\n\n---\n\n" (rs.map amendedEntryBlock)

/-- A benign upstream outcome used by concrete instantiations. -/
def okUp : FetchOutcome :=
  .httpResponse 200 "null" (.ok {})

/-- Concrete arguments with an explicit key, used by concrete instantiations. -/
def argsExplicitKey : SearchArgs :=
  { objective := some "find news", api_key := some "k" }

/-- Concrete arguments without an explicit key, used by concrete
instantiations. -/
def argsNoKey : SearchArgs :=
  { objective := some "find news" }

/-- Concrete arguments with an empty-string objective and a query list. -/
def c3Args : SearchArgs :=
  { objective := some "", search_queries := some ["q"], api_key := some "k" }

/-- Concrete arguments supplying every field. -/
def c3AllArgs : SearchArgs :=
  { objective := some "goal", search_queries := some ["q1", "q2"],
    processor := some "pro", max_results := some 3,
    max_chars_per_result := some 500,
    source_policy := some [("include_domains", "example.com")],
    api_key := some "k" }

/-- A concrete result entry whose title is the empty string. -/
def c4Entry : ResultEntry :=
  { title := some "", url := some "U", excerpts := some ["a", "b"] }

/-- A concrete parsed response with one ordinary result entry. -/
def c4Data : SearchData :=
  { search_id := some "s2",
    results := some [{ title := some "T", url := some "U",
                       excerpts := some ["a", "b"] }] }

/-- Every string contains the empty substring. -/
theorem containsStr_empty_sub (s : String) : containsStr s "" :=
  ⟨"", s, by rw [String.append_empty, String.empty_append]⟩

/-- Key membership on a cons cell. -/
theorem hasKey_cons (x : String × JsonVal) (l : List (String × JsonVal))
    (k : String) : hasKey (x :: l) k = ((x.1 == k) || hasKey l k) := by
  simp [hasKey]

/-- Looking up the key stored at the head of the payload. -/
theorem lookupKey_cons_self (v : JsonVal) (l : List (String × JsonVal))
    (k : String) : lookupKey ((k, v) :: l) k = some v := by
  simp [lookupKey, List.find?]

/-- The keys present among the optional payload fields match the inclusion
conditions of the source exactly. -/
theorem optFields_keys (args : SearchArgs) :
    hasKey (optFields args) "objective" = strTruthy args.objective ∧
    hasKey (optFields args) "search_queries" = args.search_queries.isSome ∧
    hasKey (optFields args) "max_results" = args.max_results.isSome ∧
    hasKey (optFields args) "max_chars_per_result" = args.max_chars_per_result.isSome ∧
    hasKey (optFields args) "source_policy" = args.source_policy.isSome := by
  unfold optFields
  cases h1 : strTruthy args.objective <;>
    cases h2 : args.search_queries <;>
    cases h3 : args.max_results <;>
    cases h4 : args.max_chars_per_result <;>
    cases h5 : args.source_policy <;>
      simp [hasKey, arrTruthy]

/-- C1: when both `objective` and `search_queries` are absent,
`parallel_search` returns the validation error text, that text names both
fields, and no outbound request is issued. -/
theorem c1_missing_inputs_validation (args : SearchArgs) (env : Option String)
    (up : FetchOutcome) (hobj : args.objective = none)
    (hq : args.search_queries = none) :
    parallelSearch args env up = (missingInputMsg, none) ∧
      containsStr missingInputMsg "objective" ∧
      containsStr missingInputMsg "search_queries" := by
  refine ⟨?_, ?_, ?_⟩
  · have hmiss : inputsMissing args = true := by
      unfold inputsMissing
      rw [hobj, hq]
      decide
    unfold parallelSearch
    rw [hmiss]
    rfl
  · exact ⟨"Error: At least one of " ++ apos,
      apos ++ " or " ++ apos ++ "search_queries" ++ apos ++ " is required.",
      by decide⟩
  · exact ⟨"Error: At least one of " ++ apos ++ "objective" ++ apos ++
        " or " ++ apos, apos ++ " is required.", by decide⟩

/-- Witness for C1 at the empty argument set. -/
theorem c1_missing_inputs_validation_witness :
    parallelSearch {} none (FetchOutcome.fault "E" "m") = (missingInputMsg, none) ∧
      containsStr missingInputMsg "objective" ∧
      containsStr missingInputMsg "search_queries" :=
  c1_missing_inputs_validation {} none (FetchOutcome.fault "E" "m") rfl rfl

/-- C10: the presence test uses JavaScript truthiness: an empty-string
`objective` together with an absent `search_queries` fails validation
exactly like an absent objective, while an empty `search_queries` array
counts as present and passes the validation test. -/
theorem c10_truthiness_edge (args args2 : SearchArgs) (env : Option String)
    (up : FetchOutcome) (hobj : args.objective = some "")
    (hq : args.search_queries = none)
    (hq2 : args2.search_queries = some []) :
    parallelSearch args env up = (missingInputMsg, none) ∧
      inputsMissing args = true ∧
      inputsMissing args2 = false := by
  have hmiss : inputsMissing args = true := by
    unfold inputsMissing
    rw [hobj, hq]
    decide
  refine ⟨?_, hmiss, ?_⟩
  · unfold parallelSearch
    rw [hmiss]
    rfl
  · simp [inputsMissing, hq2, arrTruthy]

/-- Witness for C10 with an empty-string objective and with an empty query
array. -/
theorem c10_truthiness_edge_witness :
    parallelSearch { objective := some "" } none okUp = (missingInputMsg, none) ∧
      inputsMissing { objective := some "" } = true ∧
      inputsMissing { search_queries := some ([] : List String) } = false :=
  c10_truthiness_edge { objective := some "" }
    { search_queries := some ([] : List String) } none okUp rfl rfl rfl

/-- C9: the response-handling step is a pure function of the upstream
outcome, so two runs over the same response body yield byte-identical
output text. -/
theorem c9_formatting_deterministic (o1 o2 : FetchOutcome) (h : o1 = o2) :
    handleUpstream o1 = handleUpstream o2 :=
  congrArg handleUpstream h

/-- Witness for C9 at a concrete response. -/
theorem c9_formatting_deterministic_witness :
    handleUpstream (FetchOutcome.httpResponse 200 "null" (Except.ok {})) =
      handleUpstream (FetchOutcome.httpResponse 200 "null" (Except.ok {})) :=
  c9_formatting_deterministic _ _ rfl

/-- C5: for every non-2xx upstream HTTP response the handler returns exactly
the upstream-error text built from the numeric status code and the raw body
text, so the output contains both. -/
theorem c5_http_error_reporting (status : Nat) (bodyText : String)
    (parsed : Except String SearchData) (h : status < 200 ∨ 299 < status) :
    handleUpstream (.httpResponse status bodyText parsed) =
      "Error: Parallel Search API returned " ++ toString status ++ ": " ++ bodyText ∧
    containsStr (handleUpstream (.httpResponse status bodyText parsed))
      (toString status) ∧
    containsStr (handleUpstream (.httpResponse status bodyText parsed))
      bodyText := by
  have he : handleUpstream (.httpResponse status bodyText parsed) =
      "Error: Parallel Search API returned " ++ toString status ++ ": " ++ bodyText := by
    simp only [handleUpstream]
    rw [if_pos h]
  refine ⟨he, ?_, ?_⟩
  · rw [he]
    exact ⟨"Error: Parallel Search API returned ", ": " ++ bodyText,
      String.append_assoc _ ": " bodyText⟩
  · rw [he]
    exact ⟨"Error: Parallel Search API returned " ++ toString status ++ ": ", "",
      (String.append_empty _).symm⟩

/-- Witness for C5 at the example given in the spec of a 500 response with body
`server error`. -/
theorem c5_http_error_reporting_witness :
    handleUpstream (.httpResponse 500 "server error" (.error "bad json")) =
      "Error: Parallel Search API returned " ++ toString 500 ++ ": " ++ "server error" ∧
    containsStr (handleUpstream (.httpResponse 500 "server error" (.error "bad json")))
      (toString 500) ∧
    containsStr (handleUpstream (.httpResponse 500 "server error" (.error "bad json")))
      "server error" :=
  c5_http_error_reporting 500 "server error" (.error "bad json")
    (Or.inr (by decide))

/-- The fixed timeout text is never equal to a generic transport-failure
text, whatever the embedded message. -/
theorem timeout_ne_generic (m : String) :
    timeoutMsg ≠ "Error calling Parallel Search API: " ++ m := by
  intro h
  have hd : timeoutMsg.data = ("Error calling Parallel Search API: " ++ m).data :=
    congrArg String.data h
  rw [String.data_append] at hd
  have h6 : timeoutMsg.data.take 6 =
      ("Error calling Parallel Search API: ".data ++ m.data).take 6 := by
    rw [hd]
  rw [List.take_append_of_le_length (by decide)] at h6
  exact absurd h6 (by decide)

/-- C6: a fault named `TimeoutError` yields the fixed timeout text, any
other fault yields the generic transport text embedding the message of the
fault, and the timeout text never coincides with a generic transport
text. -/
theorem c6_transport_failure_discrimination (name message : String)
    (hn : name ≠ "TimeoutError") :
    handleUpstream (.fault "TimeoutError" message) = timeoutMsg ∧
    handleUpstream (.fault name message) =
      "Error calling Parallel Search API: " ++ message ∧
    containsStr (handleUpstream (.fault name message)) message ∧
    timeoutMsg ≠ "Error calling Parallel Search API: " ++ message := by
  have hgen : handleUpstream (.fault name message) =
      "Error calling Parallel Search API: " ++ message := by
    simp only [handleUpstream]
    rw [if_neg hn]
  refine ⟨?_, hgen, ?_, timeout_ne_generic message⟩
  · simp [handleUpstream]
  · rw [hgen]
    exact ⟨"Error calling Parallel Search API: ", "",
      (String.append_empty _).symm⟩

/-- Witness for C6 at a fault named `TypeError`. -/
theorem c6_transport_failure_discrimination_witness :
    handleUpstream (.fault "TimeoutError" "boom") = timeoutMsg ∧
    handleUpstream (.fault "TypeError" "boom") =
      "Error calling Parallel Search API: " ++ "boom" ∧
    containsStr (handleUpstream (.fault "TypeError" "boom")) "boom" ∧
    timeoutMsg ≠ "Error calling Parallel Search API: " ++ "boom" :=
  c6_transport_failure_discrimination "TypeError" "boom" (by decide)

/-- C7: a 2xx response whose results list is absent or empty yields the
completed-but-no-results message; that message contains the search
identifier when present, contains the literal `unknown` when the identifier
is absent, and indicates that no results were found. -/
theorem c7_empty_results (status : Nat) (bodyText : String) (d : SearchData)
    (hlo : 200 ≤ status) (hhi : status ≤ 299)
    (hres : d.results = none ∨ d.results = some []) :
    handleUpstream (.httpResponse status bodyText (.ok d)) = noResultsMsg d.search_id ∧
    (∀ sid, d.search_id = some sid → containsStr (noResultsMsg d.search_id) sid) ∧
    (d.search_id = none → containsStr (noResultsMsg d.search_id) "unknown") ∧
    containsStr (noResultsMsg d.search_id) "Search completed (ID: " ∧
    containsStr (noResultsMsg d.search_id) ") but no results found." := by
  refine ⟨?_, ?_, ?_, ?_, ?_⟩
  · have hok : ¬(status < 200 ∨ 299 < status) := by omega
    simp only [handleUpstream]
    rw [if_neg hok]
    rcases hres with hres | hres <;> simp [formatSearchData, hres]
  · intro sid hsid
    rw [hsid]
    cases hE : sid.isEmpty
    · exact ⟨"Search completed (ID: ", ") but no results found.", by
        simp [noResultsMsg, strOrElse, hE]⟩
    · rw [(String.isEmpty_iff sid).mp hE]
      exact containsStr_empty_sub _
  · intro hsid
    rw [hsid]
    exact ⟨"Search completed (ID: ", ") but no results found.", rfl⟩
  · exact ⟨"", strOrElse d.search_id "unknown" ++ ") but no results found.", by
      unfold noResultsMsg
      rw [String.empty_append, String.append_assoc]⟩
  · exact ⟨"Search completed (ID: " ++ strOrElse d.search_id "unknown", "",
      (String.append_empty _).symm⟩

/-- Witness for C7 at the example given in the spec response with id `s1` and an empty
results list. -/
theorem c7_empty_results_witness :
    handleUpstream (.httpResponse 200 "null"
        (.ok { search_id := some "s1", results := some [] })) =
      noResultsMsg (SearchData.search_id { search_id := some "s1", results := some [] }) ∧
    (∀ sid, SearchData.search_id { search_id := some "s1", results := some ([] : List ResultEntry) } = some sid →
      containsStr (noResultsMsg (SearchData.search_id { search_id := some "s1", results := some ([] : List ResultEntry) })) sid) ∧
    (SearchData.search_id { search_id := some "s1", results := some ([] : List ResultEntry) } = none →
      containsStr (noResultsMsg (SearchData.search_id { search_id := some "s1", results := some ([] : List ResultEntry) })) "unknown") ∧
    containsStr (noResultsMsg (SearchData.search_id { search_id := some "s1", results := some ([] : List ResultEntry) })) "Search completed (ID: " ∧
    containsStr (noResultsMsg (SearchData.search_id { search_id := some "s1", results := some ([] : List ResultEntry) })) ") but no results found." :=
  c7_empty_results 200 "null" { search_id := some "s1", results := some [] }
    (by decide) (by decide) (Or.inr rfl)

/-- C2: credential resolution for calls that pass input validation: a
non-empty explicit `api_key` is the key sent upstream regardless of the
environment value; with no explicit key, a non-empty environment
`PARALLEL_API_KEY` is the key sent; when neither resolves, the call returns
the key error text — which names the explicit parameter, the environment
variable, the transport-level header, and the credential-issuing service —
and issues no outbound request. -/
theorem c2_credential_resolution (args : SearchArgs) (env : Option String)
    (up : FetchOutcome) (hval : inputsMissing args = false) :
    (∀ k, args.api_key = some k → k.isEmpty = false →
      (parallelSearch args env up).2 =
        some { url := PARALLEL_API_URL, method := "POST",
               contentType := "application/json", xApiKey := k,
               body := buildRequestBody args }) ∧
    (∀ e, args.api_key = none → env = some e → e.isEmpty = false →
      (parallelSearch args env up).2 =
        some { url := PARALLEL_API_URL, method := "POST",
               contentType := "application/json", xApiKey := e,
               body := buildRequestBody args }) ∧
    ((args.api_key = none ∨ args.api_key = some "") →
      (env = none ∨ env = some "") →
      parallelSearch args env up = (missingKeyMsg, none)) ∧
    containsStr missingKeyMsg "api_key" ∧
    containsStr missingKeyMsg "PARALLEL_API_KEY" ∧
    containsStr missingKeyMsg "x-api-key" ∧
    containsStr missingKeyMsg "https://parallel.ai" := by
  refine ⟨?_, ?_, ?_, ?_, ?_, ?_, ?_⟩
  · intro k hk hke
    have hres : resolveApiKey args.api_key env = some k := by
      unfold resolveApiKey
      rw [hk]
      simp [strTruthy, hke]
    unfold parallelSearch
    rw [hval, hres]
    simp [hke]
  · intro e hk henv hee
    have hres : resolveApiKey args.api_key env = some e := by
      unfold resolveApiKey
      rw [hk, henv]
      simp [strTruthy]
    unfold parallelSearch
    rw [hval, hres]
    simp [hee]
  · intro hk henv
    have h0 : ("" : String).isEmpty = true := rfl
    have hres : resolveApiKey args.api_key env = env := by
      unfold resolveApiKey
      rcases hk with hk | hk <;> rw [hk] <;> simp [strTruthy, h0]
    unfold parallelSearch
    rw [hval, hres]
    rcases henv with henv | henv <;> rw [henv] <;> simp [h0]
  · exact ⟨"Error: Parallel API key is required. Either pass it as " ++ apos,
      apos ++ " parameter, set PARALLEL_API_KEY environment variable, or " ++
        "configure it in your MCP client headers as " ++ apos ++ "x-api-key" ++
        apos ++ ". Get your API key from https://parallel.ai", by decide⟩
  · exact ⟨"Error: Parallel API key is required. Either pass it as " ++ apos ++
        "api_key" ++ apos ++ " parameter, set ",
      " environment variable, or configure it in your MCP client headers " ++
        "as " ++ apos ++ "x-api-key" ++ apos ++
        ". Get your API key from https://parallel.ai", by decide⟩
  · exact ⟨"Error: Parallel API key is required. Either pass it as " ++ apos ++
        "api_key" ++ apos ++ " parameter, set PARALLEL_API_KEY environment " ++
        "variable, or configure it in your MCP client headers as " ++ apos,
      apos ++ ". Get your API key from https://parallel.ai", by decide⟩
  · exact ⟨"Error: Parallel API key is required. Either pass it as " ++ apos ++
        "api_key" ++ apos ++ " parameter, set PARALLEL_API_KEY environment " ++
        "variable, or configure it in your MCP client headers as " ++ apos ++
        "x-api-key" ++ apos ++ ". Get your API key from ", "", by decide⟩

/-- Witness for C2: the explicit key wins over the environment, the
environment key is used when no explicit key is given, and with neither the
key error is returned without a request. -/
theorem c2_credential_resolution_witness :
    (parallelSearch argsExplicitKey (some "envkey") okUp).2 =
      some { url := PARALLEL_API_URL, method := "POST",
             contentType := "application/json", xApiKey := "k",
             body := buildRequestBody argsExplicitKey } ∧
    (parallelSearch argsNoKey (some "envkey") okUp).2 =
      some { url := PARALLEL_API_URL, method := "POST",
             contentType := "application/json", xApiKey := "envkey",
             body := buildRequestBody argsNoKey } ∧
    parallelSearch argsNoKey none okUp = (missingKeyMsg, none) :=
  ⟨(c2_credential_resolution argsExplicitKey (some "envkey") okUp
      (by decide)).1 "k" rfl (by decide),
   (c2_credential_resolution argsNoKey (some "envkey") okUp
      (by decide)).2.1 "envkey" rfl rfl (by decide),
   (c2_credential_resolution argsNoKey none okUp
      (by decide)).2.2.1 (Or.inl rfl) (Or.inl rfl)⟩

/-- C3 counterexample: with an empty-string `objective` (plus a query list,
so validation passes, and an explicit key), the call does issue an outbound
request, yet its payload omits the `objective` key even though the caller
supplied that field — refuting the claimed "contains the field if and only
if the caller supplied it". -/
theorem c3_payload_counterexample :
    c3Args.objective.isSome = true ∧
      (parallelSearch c3Args none okUp).2.map
        (fun r => hasKey r.body "objective") = some false := by
  decide

/-- C3 (amended): for every call that issues an outbound request, the payload
contains `processor` (equal to `base` when the caller did not set it), it
contains `objective` exactly when the caller supplied a non-empty
objective, and it contains each of `search_queries`, `max_results`,
`max_chars_per_result`, `source_policy` exactly when the caller supplied
that field; a field is unset by omitting its key from the payload object. -/
theorem c3_payload_construction (args : SearchArgs) (env : Option String)
    (up : FetchOutcome) (r : OutboundRequest)
    (hr : (parallelSearch args env up).2 = some r) :
    lookupKey r.body "processor" = some (JsonVal.str (args.processor.getD "base")) ∧
    (hasKey r.body "objective" = true ↔ strTruthy args.objective = true) ∧
    (hasKey r.body "search_queries" = true ↔ args.search_queries.isSome = true) ∧
    (hasKey r.body "max_results" = true ↔ args.max_results.isSome = true) ∧
    (hasKey r.body "max_chars_per_result" = true ↔ args.max_chars_per_result.isSome = true) ∧
    (hasKey r.body "source_policy" = true ↔ args.source_policy.isSome = true) := by
  have hbody : r.body = buildRequestBody args := by
    unfold parallelSearch at hr
    split at hr
    · exact absurd hr (by simp)
    · split at hr
      · exact absurd hr (by simp)
      · split at hr
        · exact absurd hr (by simp)
        · simp only [Option.some.injEq] at hr
          rw [← hr]
  obtain ⟨k1, k2, k3, k4, k5⟩ := optFields_keys args
  rw [hbody]
  unfold buildRequestBody
  refine ⟨lookupKey_cons_self _ _ _, ?_, ?_, ?_, ?_, ?_⟩ <;>
    rw [hasKey_cons]
  · rw [k1]; simp
  · rw [k2]; simp
  · rw [k3]; simp
  · rw [k4]; simp
  · rw [k5]; simp

/-- Witness for C3 at an argument set supplying every field. -/
theorem c3_payload_construction_witness :
    lookupKey (buildRequestBody c3AllArgs) "processor" =
      some (JsonVal.str (c3AllArgs.processor.getD "base")) ∧
    (hasKey (buildRequestBody c3AllArgs) "objective" = true ↔
      strTruthy c3AllArgs.objective = true) ∧
    (hasKey (buildRequestBody c3AllArgs) "search_queries" = true ↔
      c3AllArgs.search_queries.isSome = true) ∧
    (hasKey (buildRequestBody c3AllArgs) "max_results" = true ↔
      c3AllArgs.max_results.isSome = true) ∧
    (hasKey (buildRequestBody c3AllArgs) "max_chars_per_result" = true ↔
      c3AllArgs.max_chars_per_result.isSome = true) ∧
    (hasKey (buildRequestBody c3AllArgs) "source_policy" = true ↔
      c3AllArgs.source_policy.isSome = true) :=
  c3_payload_construction c3AllArgs none okUp
    { url := PARALLEL_API_URL, method := "POST",
      contentType := "application/json", xApiKey := "k",
      body := buildRequestBody c3AllArgs } (by decide)

/-- C4 counterexample: on a result entry whose title is the empty string,
the code renders the `No title` placeholder (JavaScript truthiness), not
the bolded empty title that the wording of the claim, placeholder only when absent, prescribes, so the claimed rendering differs from that of the code at
this response. -/
theorem c4_formatting_counterexample :
    formatSearchData { search_id := some "s2", results := some [c4Entry] } ≠
      claimedResponseText (some "s2") [c4Entry] := by
  decide

/-- C4 (amended): for every upstream response with a non-empty results list,
the output is exactly the header line carrying the search identifier
(`unknown` when it is absent or empty), followed by the entry blocks —
bolded title or the `No title` placeholder when the title is absent or
empty, a URL line or the `No URL` placeholder when the url is absent or
empty, then the excerpts joined with single-space separators — joined with
the horizontal-rule separator, preserving the order of the entries. -/
theorem c4_success_formatting (d : SearchData) (rs : List ResultEntry)
    (hres : d.results = some rs) (hne : rs ≠ []) :
    formatSearchData d = amendedResponseText d.search_id rs := by
  have hblock : formatResultEntry = amendedEntryBlock := by
    funext r
    unfold formatResultEntry amendedEntryBlock strOrElse
    cases r.title <;> cases r.url <;> rfl
  obtain ⟨sid, dres⟩ := d
  dsimp only at hres ⊢
  subst hres
  unfold formatSearchData
  dsimp only
  rw [if_neg (fun h => hne (List.length_eq_zero.mp h)), hblock]
  unfold amendedResponseText
  cases sid <;> rfl

/-- Witness for C4 at the example given in the spec response: id `s2` and one entry
with title `T`, url `U` and excerpts `a`, `b`. -/
theorem c4_success_formatting_witness :
    formatSearchData c4Data =
      amendedResponseText c4Data.search_id
        [{ title := some "T", url := some "U", excerpts := some ["a", "b"] }] :=
  c4_success_formatting c4Data
    [{ title := some "T", url := some "U", excerpts := some ["a", "b"] }]
    rfl (by decide)

/-- C8: for every argument set, every environment and every behaviour of the
outbound call — success, any HTTP status, transport fault, timeout, or an
unparseable response body — `parallel_search` is a total function returning
one of the seven plain-text outcome shapes; no fault reaches the caller. -/
theorem c8_total_plain_text (args : SearchArgs) (env : Option String)
    (up : FetchOutcome) :
    (parallelSearch args env up).1 = missingInputMsg ∨
    (parallelSearch args env up).1 = missingKeyMsg ∨
    (parallelSearch args env up).1 = timeoutMsg ∨
    (∃ m, (parallelSearch args env up).1 =
      "Error calling Parallel Search API: " ++ m) ∨
    (∃ st : Nat, ∃ bd : String, (parallelSearch args env up).1 =
      "Error: Parallel Search API returned " ++ toString st ++ ": " ++ bd) ∨
    (∃ sid, (parallelSearch args env up).1 =
      "Search completed (ID: " ++ sid ++ ") but no results found.") ∨
    (∃ sid rest, (parallelSearch args env up).1 =
      "Search ID: " ++ sid ++ "\n\n" ++ rest) := by
  unfold parallelSearch
  split
  · exact Or.inl rfl
  · split
    · exact Or.inr (Or.inl rfl)
    · split
      · exact Or.inr (Or.inl rfl)
      · show handleUpstream up = _ ∨ _
        cases up with
        | fault name message =>
          by_cases hn : name = "TimeoutError"
          · subst hn
            refine Or.inr (Or.inr (Or.inl ?_))
            simp [handleUpstream]
          · refine Or.inr (Or.inr (Or.inr (Or.inl ⟨message, ?_⟩)))
            simp only [handleUpstream]
            rw [if_neg hn]
        | httpResponse status bodyText parsed =>
          by_cases hs : status < 200 ∨ 299 < status
          · refine Or.inr (Or.inr (Or.inr (Or.inr (Or.inl ⟨status, bodyText, ?_⟩))))
            simp only [handleUpstream]
            rw [if_pos hs]
          · cases parsed with
            | error e =>
              refine Or.inr (Or.inr (Or.inr (Or.inl ⟨e, ?_⟩)))
              simp only [handleUpstream]
              rw [if_neg hs]
            | ok d =>
              cases hres : d.results with
              | none =>
                refine Or.inr (Or.inr (Or.inr (Or.inr (Or.inr (Or.inl
                  ⟨strOrElse d.search_id "unknown", ?_⟩)))))
                simp only [handleUpstream]
                rw [if_neg hs]
                simp [formatSearchData, noResultsMsg, hres]
              | some rs =>
                by_cases hlen : rs.length = 0
                · refine Or.inr (Or.inr (Or.inr (Or.inr (Or.inr (Or.inl
                    ⟨strOrElse d.search_id "unknown", ?_⟩)))))
                  simp only [handleUpstream]
                  rw [if_neg hs]
                  simp [formatSearchData, noResultsMsg, hres, hlen]
                · refine Or.inr (Or.inr (Or.inr (Or.inr (Or.inr (Or.inr
                    ⟨strOrElse d.search_id "unknown",
                     String.intercalate "\n\n---\n\n" (rs.map formatResultEntry), ?_⟩)))))
                  simp only [handleUpstream]
                  rw [if_neg hs]
                  simp [formatSearchData, hres, hlen]

end ParallelMCP
